import Mathlib

/-!
Shallow embedding of the restaurant booking backend (`backend.py`) over the
relational schema declared by `create_tables`.

Conventions of the embedding:
* A calendar date is a day index `d : Nat`; a time of day is minutes since
  midnight `t : Nat`.  The SQL expression
  `(booking_date || ' ' || booking_time::text)::timestamp`, and Python's
  `datetime.combine(booking_date, booking_time)`, both become the absolute
  minute count `d * 1440 + t` (`bookingStart`).  `timedelta(hours=h)` and
  `INTERVAL '2 hours'` become `h * 60` and `120` minutes.
* Timestamps (`created_at`, `updated_at`, `datetime.now()`, `CURRENT_TIMESTAMP`)
  are opaque `Nat` clock values; mutating operations take the current clock as
  an explicit `now` argument.
* Each operation takes the store state and returns its result paired with the
  resulting store; a raised Python exception becomes an `Except.error` and, per
  the driver's rollback-on-exception (`db_driver.get_cursor`), leaves the store
  unchanged.
* The schema's constraints that operations can trip are modelled where a
  statement can violate them: the `NOT NULL` foreign keys of `bookings` on
  `INSERT`/`UPDATE`/referenced `DELETE`, and the unique columns touched by
  `update_user` / `update_table`.  A violation is the store-level
  `IntegrityError`, modelled as `fkViolation` / `uniqueViolation`, distinct
  from the domain `ValueError`s (`notFound`, `unavailable`, `conflict`).
* `status` and `notes` are non-null strings, as every write path of the
  program produces (`status` defaults to `"pending"`, `notes` is normalized).
-/

/-- Row of the `users` relation (`create_tables` in `backend.py`). -/
structure UserRow where
  id : Nat
  username : String
  email : String
  full_name : Option String
  phone : Option String
  role : String
  is_active : Bool
  created_at : Nat
  updated_at : Nat
deriving DecidableEq

/-- Row of the `tables` relation. -/
structure TableRow where
  id : Nat
  table_number : String
  capacity : Int
  location : Option String
  is_available : Bool
  description : Option String
  created_at : Nat
  updated_at : Nat
deriving DecidableEq

/-- Row of the `bookings` relation.  Note: the schema has no duration column;
a booking row records only its start (`booking_date`, `booking_time`). -/
structure BookingRow where
  id : Nat
  user_id : Nat
  table_id : Nat
  booking_date : Nat
  booking_time : Nat
  guests_count : Int
  status : String
  notes : String
  created_at : Nat
  updated_at : Nat
deriving DecidableEq

/-- The relational store: the three relations plus the `bookings` id sequence
(`SERIAL`), which assigns the identity of the next inserted booking. -/
structure Store where
  users : List UserRow
  tables : List TableRow
  bookings : List BookingRow
  nextBookingId : Nat
deriving DecidableEq

/-- Errors an operation can raise.  `notFound`, `unavailable` and `conflict`
are the domain `ValueError`s raised by `check_table_availability` and
`create_booking`; `fkViolation` and `uniqueViolation` are the store-level
`IntegrityError`s raised by the database on a constraint violation. -/
inductive BackendError where
  | notFound (table_id : Nat)
  | unavailable (table_number : String)
  | conflict (table_number : String) (booking_date booking_time : Nat)
  | fkViolation (constraint : String)
  | uniqueViolation (constraint : String)
deriving DecidableEq

instance {ε α : Type} [DecidableEq ε] [DecidableEq α] : DecidableEq (Except ε α) :=
  fun a b =>
    match a, b with
    | .ok x, .ok y =>
      if h : x = y then .isTrue (by rw [h]) else .isFalse (fun hh => h (Except.ok.inj hh))
    | .error x, .error y =>
      if h : x = y then .isTrue (by rw [h]) else .isFalse (fun hh => h (Except.error.inj hh))
    | .ok _, .error _ => .isFalse (fun hh => Except.noConfusion hh)
    | .error _, .ok _ => .isFalse (fun hh => Except.noConfusion hh)

/-- Absolute start instant of a booking row, in minutes:
`(booking_date || ' ' || booking_time::text)::timestamp`. -/
def bookingStart (b : BookingRow) : Nat :=
  b.booking_date * 1440 + b.booking_time

/-- The `WHERE` predicate of the conflict-count query in
`check_table_availability`: same table, same date, not cancelled, and
`existing.start < candidate_end AND existing.start + 2 hours > candidate_start`
(the existing booking's end is hardcoded as start plus 2 hours). -/
def conflictsWith (table_id d startDT endDT : Nat) (b : BookingRow) : Bool :=
  b.table_id == table_id && b.booking_date == d && b.status != "cancelled" &&
  decide (bookingStart b < endDT) && decide (bookingStart b + 120 > startDT)

/-- `SELECT * FROM tables WHERE id = %s` with `fetchone`. -/
def get_table_by_id (st : Store) (table_id : Nat) : Option TableRow :=
  st.tables.find? (fun tb => tb.id == table_id)

/-- `check_table_availability(table_id, booking_date, booking_time,
duration_hours=2)`: raises `notFound` when the table is missing, raises
`unavailable` when its availability flag is false, otherwise answers whether
the conflict-count query returns zero. -/
def check_table_availability (st : Store) (table_id d t : Nat)
    (duration_hours : Nat := 2) : Except BackendError Bool :=
  match get_table_by_id st table_id with
  | none => .error (.notFound table_id)
  | some tb =>
    if !tb.is_available then
      .error (.unavailable tb.table_number)
    else
      let startDT := d * 1440 + t
      let endDT := startDT + duration_hours * 60
      .ok ((st.bookings.filter (conflictsWith table_id d startDT endDT)).length == 0)

/-- Python's `str.strip()`: the string without its leading and trailing
whitespace. -/
def pyStrip (s : String) : String :=
  String.mk (((s.data.dropWhile Char.isWhitespace).reverse.dropWhile
    Char.isWhitespace).reverse)

/-- The notes-normalization block shared by `create_booking` and
`update_booking`: `None` becomes `''`, a string is stripped. -/
def normalizeNotes (notes : Option String) : String :=
  match notes with
  | none => ""
  | some s => pyStrip s

/-- `create_booking(user_id, table_id, booking_date, booking_time,
guests_count, status="pending", notes=None, duration_hours=2)`: checks
availability first (propagating its errors), raises `conflict` when the check
answers false, otherwise normalizes notes and inserts the row, the store
assigning its identity and timestamps.  The insert trips the `NOT NULL`
foreign keys of `bookings` when the referenced user or table is missing. -/
def create_booking (st : Store) (now : Nat) (user_id table_id d t : Nat)
    (guests_count : Int) (status : String := "pending")
    (notes : Option String := none) (duration_hours : Nat := 2) :
    Except BackendError BookingRow × Store :=
  match check_table_availability st table_id d t duration_hours with
  | .error e => (.error e, st)
  | .ok avail =>
    if !avail then
      let table_number :=
        match get_table_by_id st table_id with
        | some tb => tb.table_number
        | none => "ID " ++ toString table_id
      (.error (.conflict table_number d t), st)
    else
      let notes' := normalizeNotes notes
      if !(st.users.any (fun u => u.id == user_id)) then
        (.error (.fkViolation "bookings_user_id_fkey"), st)
      else if !(st.tables.any (fun tb => tb.id == table_id)) then
        (.error (.fkViolation "bookings_table_id_fkey"), st)
      else
        let row : BookingRow :=
          { id := st.nextBookingId, user_id := user_id, table_id := table_id,
            booking_date := d, booking_time := t, guests_count := guests_count,
            status := status, notes := notes', created_at := now,
            updated_at := now }
        (.ok row,
         { st with bookings := st.bookings ++ [row],
                   nextBookingId := st.nextBookingId + 1 })

/-- `delete_booking(booking_id)`: `DELETE FROM bookings WHERE id = %s`,
returning whether a row was deleted (`rowcount > 0`). -/
def delete_booking (st : Store) (booking_id : Nat) : Bool × Store :=
  (st.bookings.any (fun b => b.id == booking_id),
   { st with bookings := st.bookings.filter (fun b => !(b.id == booking_id)) })

/-- `delete_user(user_id)`: `DELETE FROM users WHERE id = %s`.  When the
deleted row is still referenced by a booking, the store's foreign key
`bookings.user_id REFERENCES users(id)` rejects the delete; otherwise the
call returns whether a row was deleted. -/
def delete_user (st : Store) (user_id : Nat) : Except BackendError Bool × Store :=
  if st.users.any (fun u => u.id == user_id) &&
     st.bookings.any (fun b => b.user_id == user_id) then
    (.error (.fkViolation "bookings_user_id_fkey"), st)
  else
    (.ok (st.users.any (fun u => u.id == user_id)),
     { st with users := st.users.filter (fun u => !(u.id == user_id)) })

/-- `delete_table(table_id)`: `DELETE FROM tables WHERE id = %s`, rejected by
the foreign key `bookings.table_id REFERENCES tables(id)` when the deleted
row is still referenced by a booking. -/
def delete_table (st : Store) (table_id : Nat) : Except BackendError Bool × Store :=
  if st.tables.any (fun tb => tb.id == table_id) &&
     st.bookings.any (fun b => b.table_id == table_id) then
    (.error (.fkViolation "bookings_table_id_fkey"), st)
  else
    (.ok (st.tables.any (fun tb => tb.id == table_id)),
     { st with tables := st.tables.filter (fun tb => !(tb.id == table_id)) })

/-- The keyword arguments of `update_user(user_id, **kwargs)`: `some` marks a
key present in `kwargs`.  The columns `full_name` and `phone` are nullable, so
a present key carries an `Option String` value.  The keys `id`, `created_at`
and `updated_at` may be supplied but are dropped by the update.  (A key naming
no column at all would make the store reject the statement; such calls are not
modelled.) -/
structure UserPatch where
  username : Option String := none
  email : Option String := none
  full_name : Option (Option String) := none
  phone : Option (Option String) := none
  role : Option String := none
  is_active : Option Bool := none
  id : Option Nat := none
  created_at : Option Nat := none
  updated_at : Option Nat := none
deriving DecidableEq

/-- Whether `update_data` is non-empty after `update_user` drops the protected
keys `id`, `created_at`, `updated_at`. -/
def userPatchHasField (p : UserPatch) : Bool :=
  p.username.isSome || p.email.isSome || p.full_name.isSome ||
  p.phone.isSome || p.role.isSome || p.is_active.isSome

/-- The effect of `update_user`'s `SET` clause on the matched row: each present
column is replaced and `updated_at` is set to the call's current time. -/
def applyUserPatch (now : Nat) (p : UserPatch) (u : UserRow) : UserRow :=
  { u with
    username := p.username.getD u.username,
    email := p.email.getD u.email,
    full_name := p.full_name.getD u.full_name,
    phone := p.phone.getD u.phone,
    role := p.role.getD u.role,
    is_active := p.is_active.getD u.is_active,
    updated_at := now }

/-- `update_user(user_id, **kwargs)`: drops the protected keys, returns false
on an empty update set, otherwise runs
`UPDATE users SET ... , updated_at = now() WHERE id = %s` and returns
`rowcount > 0`.  When the update would duplicate a `username` or `email` of
another row, the store's unique constraints reject the statement. -/
def update_user (st : Store) (now : Nat) (user_id : Nat) (p : UserPatch) :
    Except BackendError Bool × Store :=
  if !userPatchHasField p then
    (.ok false, st)
  else if !(st.users.any (fun u => u.id == user_id)) then
    (.ok false, st)
  else
    let dupUsername : Bool :=
      match p.username with
      | some un => st.users.any (fun u => !(u.id == user_id) && u.username == un)
      | none => false
    let dupEmail : Bool :=
      match p.email with
      | some em => st.users.any (fun u => !(u.id == user_id) && u.email == em)
      | none => false
    if dupUsername then
      (.error (.uniqueViolation "users_username_key"), st)
    else if dupEmail then
      (.error (.uniqueViolation "users_email_key"), st)
    else
      let users' := st.users.map
        (fun u => if u.id == user_id then applyUserPatch now p u else u)
      (.ok true, { st with users := users' })

/-- The keyword arguments of `update_table(table_id, **kwargs)`. -/
structure TablePatch where
  table_number : Option String := none
  capacity : Option Int := none
  location : Option (Option String) := none
  is_available : Option Bool := none
  description : Option (Option String) := none
  id : Option Nat := none
  created_at : Option Nat := none
  updated_at : Option Nat := none
deriving DecidableEq

/-- Whether `update_data` is non-empty after `update_table` drops the
protected keys. -/
def tablePatchHasField (p : TablePatch) : Bool :=
  p.table_number.isSome || p.capacity.isSome || p.location.isSome ||
  p.is_available.isSome || p.description.isSome

/-- The effect of `update_table`'s `SET` clause on the matched row. -/
def applyTablePatch (now : Nat) (p : TablePatch) (tb : TableRow) : TableRow :=
  { tb with
    table_number := p.table_number.getD tb.table_number,
    capacity := p.capacity.getD tb.capacity,
    location := p.location.getD tb.location,
    is_available := p.is_available.getD tb.is_available,
    description := p.description.getD tb.description,
    updated_at := now }

/-- `update_table(table_id, **kwargs)`: drops the protected keys, returns
false on an empty update set, otherwise updates the matched row (the unique
`table_number` column rejecting a duplicate) and returns `rowcount > 0`. -/
def update_table (st : Store) (now : Nat) (table_id : Nat) (p : TablePatch) :
    Except BackendError Bool × Store :=
  if !tablePatchHasField p then
    (.ok false, st)
  else if !(st.tables.any (fun tb => tb.id == table_id)) then
    (.ok false, st)
  else
    let dupNumber : Bool :=
      match p.table_number with
      | some tn => st.tables.any (fun tb => !(tb.id == table_id) && tb.table_number == tn)
      | none => false
    if dupNumber then
      (.error (.uniqueViolation "tables_table_number_key"), st)
    else
      let tables' := st.tables.map
        (fun tb => if tb.id == table_id then applyTablePatch now p tb else tb)
      (.ok true, { st with tables := tables' })

/-- The keyword arguments of `update_booking(booking_id, **kwargs)`.  A
present `notes` key carries the raw `Optional[str]` value, which the update
normalizes before writing. -/
structure BookingPatch where
  user_id : Option Nat := none
  table_id : Option Nat := none
  booking_date : Option Nat := none
  booking_time : Option Nat := none
  guests_count : Option Int := none
  status : Option String := none
  notes : Option (Option String) := none
  id : Option Nat := none
  created_at : Option Nat := none
  updated_at : Option Nat := none
deriving DecidableEq

/-- Whether `update_data` is non-empty after `update_booking` drops the
protected keys. -/
def bookingPatchHasField (p : BookingPatch) : Bool :=
  p.user_id.isSome || p.table_id.isSome || p.booking_date.isSome ||
  p.booking_time.isSome || p.guests_count.isSome || p.status.isSome ||
  p.notes.isSome

/-- The effect of `update_booking`'s `SET` clause on the matched row: each
present column is replaced (`notes` after normalization) and `updated_at` is
set to the call's current time.  No availability re-check takes place. -/
def applyBookingPatch (now : Nat) (p : BookingPatch) (b : BookingRow) : BookingRow :=
  { b with
    user_id := p.user_id.getD b.user_id,
    table_id := p.table_id.getD b.table_id,
    booking_date := p.booking_date.getD b.booking_date,
    booking_time := p.booking_time.getD b.booking_time,
    guests_count := p.guests_count.getD b.guests_count,
    status := p.status.getD b.status,
    notes := match p.notes with
             | some v => normalizeNotes v
             | none => b.notes,
    updated_at := now }

/-- `update_booking(booking_id, **kwargs)`: drops the protected keys, returns
false on an empty update set, normalizes a present `notes` value, then runs
the `UPDATE` and returns `rowcount > 0`.  The foreign keys of `bookings`
reject the statement when it would point the matched row at a missing user or
table.  The admission check is never consulted. -/
def update_booking (st : Store) (now : Nat) (booking_id : Nat) (p : BookingPatch) :
    Except BackendError Bool × Store :=
  if !bookingPatchHasField p then
    (.ok false, st)
  else if !(st.bookings.any (fun b => b.id == booking_id)) then
    (.ok false, st)
  else
    let badUser : Bool :=
      match p.user_id with
      | some uid => !(st.users.any (fun u => u.id == uid))
      | none => false
    let badTable : Bool :=
      match p.table_id with
      | some tid => !(st.tables.any (fun tb => tb.id == tid))
      | none => false
    if badUser then
      (.error (.fkViolation "bookings_user_id_fkey"), st)
    else if badTable then
      (.error (.fkViolation "bookings_table_id_fkey"), st)
    else
      let bookings' := st.bookings.map
        (fun b => if b.id == booking_id then applyBookingPatch now p b else b)
      (.ok true, { st with bookings := bookings' })

/-- Property P1 of the spec, read over the store: no two distinct non-cancelled
bookings on the same table and date overlap, each booking's end instant being
its start plus the 2 hours the conflict query ascribes to every stored booking
(the schema stores no duration). -/
def overlapping (b1 b2 : BookingRow) : Bool :=
  b1.table_id == b2.table_id && b1.booking_date == b2.booking_date &&
  b1.status != "cancelled" && b2.status != "cancelled" &&
  decide (bookingStart b1 < bookingStart b2 + 120) &&
  decide (bookingStart b2 < bookingStart b1 + 120)

/-- The no-overlap invariant P1 over a booking relation. -/
def NoOverlap (l : List BookingRow) : Prop :=
  l.Pairwise (fun b1 b2 => overlapping b1 b2 = false)

instance : DecidablePred NoOverlap := fun l =>
  List.instDecidablePairwise l

/-! Concrete sample data: one user, three tables (the third manually marked
unavailable), and bookings for 18:00 (minute 1080) of day 10, used to
instantiate the theorems below on closed inputs. -/

/-- Sample user with identity 1. -/
def sampleUser : UserRow :=
  { id := 1, username := "alice", email := "alice@example.com",
    full_name := none, phone := none, role := "client", is_active := true,
    created_at := 0, updated_at := 0 }

/-- Sample available table with identity 1. -/
def sampleT1 : TableRow :=
  { id := 1, table_number := "T1", capacity := 4, location := none,
    is_available := true, description := none, created_at := 0, updated_at := 0 }

/-- Sample available table with identity 2. -/
def sampleT2 : TableRow :=
  { id := 2, table_number := "T2", capacity := 4, location := none,
    is_available := true, description := none, created_at := 0, updated_at := 0 }

/-- Sample table with identity 3 whose availability flag is off. -/
def sampleT3 : TableRow :=
  { id := 3, table_number := "T3", capacity := 4, location := none,
    is_available := false, description := none, created_at := 0, updated_at := 0 }

/-- Sample booking: table 1, day 10, 18:00, pending. -/
def sampleBookingA : BookingRow :=
  { id := 1, user_id := 1, table_id := 1, booking_date := 10,
    booking_time := 1080, guests_count := 2, status := "pending", notes := "",
    created_at := 0, updated_at := 0 }

/-- Sample booking: same slot as `sampleBookingA` but on table 2. -/
def sampleBookingB : BookingRow :=
  { id := 2, user_id := 1, table_id := 2, booking_date := 10,
    booking_time := 1080, guests_count := 2, status := "pending", notes := "",
    created_at := 0, updated_at := 0 }

/-- The booking row inserted by a successful
`create_booking storeEmpty 5 1 1 10 1080 2 "pending" none _` call below. -/
def sampleBookingC5 : BookingRow :=
  { id := 1, user_id := 1, table_id := 1, booking_date := 10,
    booking_time := 1080, guests_count := 2, status := "pending", notes := "",
    created_at := 5, updated_at := 5 }

/-- Booking starting exactly where `sampleBookingA`'s 2-hour window ends
(20:00 of day 10): a touching boundary. -/
def sampleBookingTouch : BookingRow :=
  { id := 2, user_id := 1, table_id := 1, booking_date := 10,
    booking_time := 1200, guests_count := 2, status := "pending", notes := "",
    created_at := 5, updated_at := 5 }

/-- Store with no bookings. -/
def storeEmpty : Store :=
  { users := [sampleUser], tables := [sampleT1, sampleT2, sampleT3],
    bookings := [], nextBookingId := 1 }

/-- Store holding `sampleBookingA` alone. -/
def storeA : Store :=
  { users := [sampleUser], tables := [sampleT1, sampleT2, sampleT3],
    bookings := [sampleBookingA], nextBookingId := 2 }

/-- Store holding `sampleBookingA` and `sampleBookingB`, the same slot on two
different tables. -/
def storeAB : Store :=
  { users := [sampleUser], tables := [sampleT1, sampleT2, sampleT3],
    bookings := [sampleBookingA, sampleBookingB], nextBookingId := 3 }

/-- `storeA` after also booking the touching 20:00 slot on table 1. -/
def storeATouch : Store :=
  { users := [sampleUser], tables := [sampleT1, sampleT2, sampleT3],
    bookings := [sampleBookingA, sampleBookingTouch], nextBookingId := 3 }

/-! Helper lemmas. -/

/-- On a found, available table the availability check answers true exactly
when no stored booking satisfies the conflict predicate. -/
lemma check_ok_true_iff (st : Store) (tid d t dur : Nat) (tb : TableRow)
    (hfind : get_table_by_id st tid = some tb) (hav : tb.is_available = true) :
    check_table_availability st tid d t dur = .ok true ↔
      ∀ b ∈ st.bookings,
        conflictsWith tid d (d * 1440 + t) (d * 1440 + t + dur * 60) b = false := by
  unfold check_table_availability
  rw [hfind]
  simp [hav, List.length_eq_zero, List.filter_eq_nil_iff]

/-- The conflict predicate, read as a proposition. -/
lemma conflictsWith_eq_false_iff (tid d s e : Nat) (b : BookingRow) :
    conflictsWith tid d s e b = false ↔
      ¬(b.table_id = tid ∧ b.booking_date = d ∧ b.status ≠ "cancelled" ∧
        bookingStart b < e ∧ s < bookingStart b + 120) := by
  constructor
  · intro h hc
    rw [Bool.eq_false_iff] at h
    apply h
    simp only [conflictsWith, Bool.and_eq_true, bne_iff_ne, beq_iff_eq,
      decide_eq_true_eq]
    obtain ⟨h1, h2, h3, h4, h5⟩ := hc
    exact ⟨⟨⟨⟨h1, h2⟩, h3⟩, h4⟩, by omega⟩
  · intro h
    rw [Bool.eq_false_iff]
    intro hc
    apply h
    simp only [conflictsWith, Bool.and_eq_true, bne_iff_ne, beq_iff_eq,
      decide_eq_true_eq] at hc
    obtain ⟨⟨⟨⟨h1, h2⟩, h3⟩, h4⟩, h5⟩ := hc
    exact ⟨h1, h2, h3, h4, by omega⟩

/-- C2: for every existing available table, `check_table_availability` returns
true iff no stored booking has the same `table_id`, exactly the candidate's
`booking_date`, a status other than `cancelled`, and an interval overlapping
the candidate's half-open interval
`[combine(date, time), combine(date, time) + duration_hours)` — the existing
booking's end being its start plus exactly 2 hours (120 minutes) regardless of
any stored duration, with strict inequalities on both sides. -/
theorem check_table_availability_correct (st : Store) (tid d t dur : Nat)
    (tb : TableRow) (hfind : get_table_by_id st tid = some tb)
    (hav : tb.is_available = true) :
    check_table_availability st tid d t dur = .ok true ↔
      ∀ b ∈ st.bookings,
        ¬(b.table_id = tid ∧ b.booking_date = d ∧ b.status ≠ "cancelled" ∧
          bookingStart b < d * 1440 + t + dur * 60 ∧
          d * 1440 + t < bookingStart b + 120) := by
  rw [check_ok_true_iff st tid d t dur tb hfind hav]
  exact forall₂_congr (fun b _ => conflictsWith_eq_false_iff tid d _ _ b)

theorem check_table_availability_correct_witness :
    get_table_by_id storeA 1 = some sampleT1 ∧ sampleT1.is_available = true ∧
    (check_table_availability storeA 1 10 1140 2 = .ok true ↔
      ∀ b ∈ storeA.bookings,
        ¬(b.table_id = 1 ∧ b.booking_date = 10 ∧ b.status ≠ "cancelled" ∧
          bookingStart b < 10 * 1440 + 1140 + 2 * 60 ∧
          10 * 1440 + 1140 < bookingStart b + 120)) :=
  ⟨by decide, rfl,
   check_table_availability_correct storeA 1 10 1140 2 sampleT1 (by decide) rfl⟩

/-- C5: `check_table_availability` raises `notFound` when no table with the
given identity exists, raises `unavailable` (naming the table's number) when
the table exists with its availability flag off — doing so for every booking
relation, in particular a conflict-free one, since the overlap query is never
reached — and otherwise returns a boolean. -/
theorem check_table_availability_error_cases (st : Store) (tid d t dur : Nat) :
    (get_table_by_id st tid = none →
      check_table_availability st tid d t dur = .error (.notFound tid)) ∧
    (∀ tb, get_table_by_id st tid = some tb → tb.is_available = false →
      check_table_availability st tid d t dur = .error (.unavailable tb.table_number)) ∧
    (∀ tb, get_table_by_id st tid = some tb → tb.is_available = true →
      ∃ r : Bool, check_table_availability st tid d t dur = .ok r) := by
  refine ⟨?_, ?_, ?_⟩
  · intro h
    unfold check_table_availability
    rw [h]
  · intro tb h hav
    unfold check_table_availability
    rw [h]
    simp [hav]
  · intro tb h hav
    unfold check_table_availability
    rw [h]
    simp [hav]

theorem check_table_availability_error_cases_witness :
    storeEmpty.bookings = [] ∧ get_table_by_id storeEmpty 3 = some sampleT3 ∧
    sampleT3.is_available = false ∧
    check_table_availability storeEmpty 3 10 1080 2 = .error (.unavailable "T3") :=
  ⟨rfl, by decide, rfl,
   (check_table_availability_error_cases storeEmpty 3 10 1080 2).2.1 sampleT3
     (by decide) rfl⟩

/-- Characterization of a successful `create_booking`: it succeeds exactly
when the availability check answers true and the referenced user and table
exist, and then the returned row and resulting store are fully determined. -/
lemma create_booking_ok_iff (st : Store) (now uid tid d t : Nat) (g : Int)
    (s : String) (n : Option String) (dur : Nat) (row : BookingRow) (st' : Store) :
    create_booking st now uid tid d t g s n dur = (.ok row, st') ↔
      check_table_availability st tid d t dur = .ok true ∧
      st.users.any (fun u => u.id == uid) = true ∧
      st.tables.any (fun tb => tb.id == tid) = true ∧
      row = { id := st.nextBookingId, user_id := uid, table_id := tid,
              booking_date := d, booking_time := t, guests_count := g,
              status := s, notes := normalizeNotes n, created_at := now,
              updated_at := now } ∧
      st' = { st with bookings := st.bookings ++ [row],
                      nextBookingId := st.nextBookingId + 1 } := by
  unfold create_booking
  cases hchk : check_table_availability st tid d t dur with
  | error e => simp [hchk]
  | ok avail =>
    cases avail with
    | false => simp [hchk]
    | true =>
      by_cases hu : st.users.any (fun u => u.id == uid)
      · by_cases ht : st.tables.any (fun tb => tb.id == tid)
        · simp [hchk, hu, ht, Prod.ext_iff, eq_comm, and_assoc]
          intro hrow
          subst hrow
          constructor <;> intro h <;> exact h
        · simp [hchk, hu, ht]
      · simp [hchk, hu]

/-- Every run of `create_booking` either raises, leaving the store unchanged,
or returns a row, appending exactly that row to the booking relation. -/
lemma create_booking_cases (st : Store) (now uid tid d t : Nat) (g : Int)
    (s : String) (n : Option String) (dur : Nat) :
    (∃ e, create_booking st now uid tid d t g s n dur = (.error e, st)) ∨
    (∃ row, create_booking st now uid tid d t g s n dur =
      (.ok row, { st with bookings := st.bookings ++ [row],
                          nextBookingId := st.nextBookingId + 1 })) := by
  unfold create_booking
  cases hchk : check_table_availability st tid d t dur with
  | error e => exact .inl ⟨e, rfl⟩
  | ok avail =>
    cases avail with
    | false => exact .inl ⟨_, rfl⟩
    | true =>
      by_cases hu : st.users.any (fun u => u.id == uid)
      · by_cases ht : st.tables.any (fun tb => tb.id == tid)
        · right
          refine ⟨{ id := st.nextBookingId, user_id := uid, table_id := tid,
                    booking_date := d, booking_time := t, guests_count := g,
                    status := s, notes := normalizeNotes n, created_at := now,
                    updated_at := now }, ?_⟩
          simp [hu, ht]
        · left
          refine ⟨.fkViolation "bookings_table_id_fkey", ?_⟩
          simp [hu, ht]
      · left
        refine ⟨.fkViolation "bookings_user_id_fkey", ?_⟩
        simp [hu]

/-- C3 (amended): the booking row persisted by a successful `create_booking`
and the store it leaves behind are fully determined by the call's user, table,
date, time, guest count, status, normalized notes and the store-assigned
identity and timestamps; `duration_hours` contributes nothing to the persisted
row, so the candidate's duration is not recoverable from the store. -/
theorem create_booking_persists_no_duration (st : Store) (now uid tid d t : Nat)
    (g : Int) (s : String) (n : Option String) (dur : Nat) (row : BookingRow)
    (st' : Store)
    (h : create_booking st now uid tid d t g s n dur = (.ok row, st')) :
    row = { id := st.nextBookingId, user_id := uid, table_id := tid,
            booking_date := d, booking_time := t, guests_count := g,
            status := s, notes := normalizeNotes n, created_at := now,
            updated_at := now } ∧
    st' = { st with bookings := st.bookings ++ [row],
                    nextBookingId := st.nextBookingId + 1 } := by
  rw [create_booking_ok_iff] at h
  exact ⟨h.2.2.2.1, h.2.2.2.2⟩

theorem create_booking_persists_no_duration_witness :
    create_booking storeEmpty 5 1 1 10 1080 2 "pending" none 3 =
      (.ok sampleBookingC5, { storeEmpty with bookings := [sampleBookingC5],
                                              nextBookingId := 2 }) ∧
    sampleBookingC5 = { id := storeEmpty.nextBookingId, user_id := 1,
                        table_id := 1, booking_date := 10, booking_time := 1080,
                        guests_count := 2, status := "pending",
                        notes := normalizeNotes none, created_at := 5,
                        updated_at := 5 } :=
  ⟨by decide,
   (create_booking_persists_no_duration storeEmpty 5 1 1 10 1080 2 "pending"
     none 3 sampleBookingC5
     { storeEmpty with bookings := [sampleBookingC5], nextBookingId := 2 }
     (by decide)).1⟩

/-- C3 does not hold as stated: two `create_booking` calls differing only in
`duration_hours` (3 versus 4) return the same row and the same store, and the
successful result carries no duration attribute, so the stored duration of
the created booking is not recoverable from the store. -/
theorem create_booking_duration_not_recoverable_cex :
    (create_booking storeEmpty 5 1 1 10 1080 2 "pending" none 3).1 =
      .ok sampleBookingC5 ∧
    create_booking storeEmpty 5 1 1 10 1080 2 "pending" none 3 =
      create_booking storeEmpty 5 1 1 10 1080 2 "pending" none 4 := by
  decide

/-- The availability check itself raises only `notFound` or `unavailable`,
never a `conflict`. -/
lemma check_table_availability_error_shape (st : Store) (tid d t dur : Nat)
    (e : BackendError) (h : check_table_availability st tid d t dur = .error e) :
    e = .notFound tid ∨ ∃ tn, e = .unavailable tn := by
  unfold check_table_availability at h
  cases hf : get_table_by_id st tid with
  | none =>
    rw [hf] at h
    simp only [Except.error.injEq] at h
    exact .inl h.symm
  | some tb =>
    rw [hf] at h
    by_cases hav : tb.is_available = true
    · simp [hav] at h
    · have hav' : tb.is_available = false := by
        simpa using hav
      simp only [hav', Bool.not_false, if_true, Except.error.injEq] at h
      exact .inr ⟨tb.table_number, h.symm⟩

/-- C4: `create_booking` consults the availability check first; a false answer
makes it raise `conflict` naming the table and the requested slot with the
store untouched; conversely a `conflict` result arises only when the check
answered false, and it names exactly the requested slot; an error of the
check is propagated unchanged with the store untouched; every failure of any
kind leaves the store unchanged; and a success persists exactly the returned
row. -/
theorem create_booking_raises_iff_atomic (st : Store) (now uid tid d t : Nat)
    (g : Int) (s : String) (n : Option String) (dur : Nat) :
    (∀ tb, get_table_by_id st tid = some tb →
      check_table_availability st tid d t dur = .ok false →
      create_booking st now uid tid d t g s n dur =
        (.error (.conflict tb.table_number d t), st)) ∧
    (∀ tn d' t', (create_booking st now uid tid d t g s n dur).1 =
        .error (.conflict tn d' t') →
      check_table_availability st tid d t dur = .ok false ∧ d' = d ∧ t' = t) ∧
    (∀ e, check_table_availability st tid d t dur = .error e →
      create_booking st now uid tid d t g s n dur = (.error e, st)) ∧
    (∀ e, (create_booking st now uid tid d t g s n dur).1 = .error e →
      (create_booking st now uid tid d t g s n dur).2 = st) ∧
    (∀ row, (create_booking st now uid tid d t g s n dur).1 = .ok row →
      (create_booking st now uid tid d t g s n dur).2 =
        { st with bookings := st.bookings ++ [row],
                  nextBookingId := st.nextBookingId + 1 }) := by
  refine ⟨?_, ?_, ?_, ?_, ?_⟩
  · intro tb hfind hchk
    unfold create_booking
    rw [hchk]
    simp [hfind]
  · intro tn d' t' h
    unfold create_booking at h
    cases hchk : check_table_availability st tid d t dur with
    | error e =>
      rw [hchk] at h
      simp only [Except.error.injEq] at h
      rcases check_table_availability_error_shape st tid d t dur e hchk with
        h1 | ⟨tn2, h2⟩
      · rw [h1] at h
        exact absurd h (by simp)
      · rw [h2] at h
        exact absurd h (by simp)
    | ok avail =>
      cases avail with
      | false =>
        rw [hchk] at h
        simp at h
        exact ⟨rfl, by omega, by omega⟩
      | true =>
        rw [hchk] at h
        by_cases hu : st.users.any (fun u => u.id == uid) <;>
          by_cases ht : st.tables.any (fun tb => tb.id == tid) <;>
          simp [hu, ht] at h
  · intro e hchk
    unfold create_booking
    rw [hchk]
  · intro e herr
    rcases create_booking_cases st now uid tid d t g s n dur with ⟨e', he⟩ | ⟨row, hr⟩
    · rw [he]
    · rw [hr] at herr
      exact absurd herr (by simp)
  · intro row hok
    rcases create_booking_cases st now uid tid d t g s n dur with ⟨e', he⟩ | ⟨row', hr⟩
    · rw [he] at hok
      exact absurd hok (by simp)
    · rw [hr] at hok ⊢
      simp only [Except.ok.injEq] at hok
      subst hok
      rfl

theorem create_booking_raises_iff_atomic_witness :
    get_table_by_id storeA 1 = some sampleT1 ∧
    check_table_availability storeA 1 10 1140 2 = .ok false ∧
    create_booking storeA 9 1 1 10 1140 2 "pending" none 2 =
      (.error (.conflict "T1" 10 1140), storeA) ∧
    ((create_booking storeA 9 1 1 10 1140 2 "pending" none 2).1 =
        .error (.conflict "T1" 10 1140) →
      check_table_availability storeA 1 10 1140 2 = .ok false ∧
        (10 : Nat) = 10 ∧ (1140 : Nat) = 1140) ∧
    check_table_availability storeA 1 10 1140 2 = .ok false :=
  ⟨by decide, by decide,
   (create_booking_raises_iff_atomic storeA 9 1 1 10 1140 2 "pending" none 2).1
     sampleT1 (by decide) (by decide),
   (create_booking_raises_iff_atomic storeA 9 1 1 10 1140 2 "pending" none
     2).2.1 "T1" 10 1140,
   ((create_booking_raises_iff_atomic storeA 9 1 1 10 1140 2 "pending" none
     2).2.1 "T1" 10 1140 (by decide)).1⟩

/-- C9: on success, the only side effect of `create_booking` is the single
appended row of the booking relation; the user and table relations and all
pre-existing booking rows are unchanged. -/
theorem create_booking_frame (st : Store) (now uid tid d t : Nat) (g : Int)
    (s : String) (n : Option String) (dur : Nat) :
    ∀ row st', create_booking st now uid tid d t g s n dur = (.ok row, st') →
      st'.users = st.users ∧ st'.tables = st.tables ∧
      st'.bookings = st.bookings ++ [row] := by
  intro row st' h
  rw [create_booking_ok_iff] at h
  obtain ⟨-, -, -, -, hst⟩ := h
  subst hst
  exact ⟨rfl, rfl, rfl⟩

theorem create_booking_frame_witness :
    create_booking storeEmpty 5 1 1 10 1080 2 "pending" none 2 =
      (.ok sampleBookingC5, { storeEmpty with bookings := [sampleBookingC5],
                                              nextBookingId := 2 }) ∧
    ({ storeEmpty with bookings := [sampleBookingC5],
                       nextBookingId := 2 } : Store).users = storeEmpty.users ∧
    ({ storeEmpty with bookings := [sampleBookingC5],
                       nextBookingId := 2 } : Store).tables = storeEmpty.tables ∧
    ({ storeEmpty with bookings := [sampleBookingC5],
                       nextBookingId := 2 } : Store).bookings =
      storeEmpty.bookings ++ [sampleBookingC5] :=
  ⟨by decide,
   create_booking_frame storeEmpty 5 1 1 10 1080 2 "pending" none 2
     sampleBookingC5 _ (by decide)⟩

/-- C6 (amended): `create_booking` performs no validation of `guests_count`.
For any non-positive guest count, when the availability check answers true and
the referenced user and table exist, the call succeeds and persists a row
carrying that non-positive guest count; no validation error is raised. -/
theorem create_booking_accepts_nonpositive_guests (st : Store)
    (now uid tid d t : Nat) (g : Int) (s : String) (n : Option String)
    (dur : Nat) (_hg : g ≤ 0)
    (hchk : check_table_availability st tid d t dur = .ok true)
    (hu : st.users.any (fun u => u.id == uid) = true)
    (ht : st.tables.any (fun tb => tb.id == tid) = true) :
    ∃ row, create_booking st now uid tid d t g s n dur =
        (.ok row, { st with bookings := st.bookings ++ [row],
                            nextBookingId := st.nextBookingId + 1 }) ∧
      row.guests_count = g := by
  refine ⟨{ id := st.nextBookingId, user_id := uid, table_id := tid,
            booking_date := d, booking_time := t, guests_count := g,
            status := s, notes := normalizeNotes n, created_at := now,
            updated_at := now }, ?_, rfl⟩
  rw [create_booking_ok_iff]
  exact ⟨hchk, hu, ht, rfl, rfl⟩

theorem create_booking_accepts_nonpositive_guests_witness :
    (0 : Int) ≤ 0 ∧ check_table_availability storeEmpty 1 10 1080 2 = .ok true ∧
    (storeEmpty.users.any (fun u => u.id == 1)) = true ∧
    (storeEmpty.tables.any (fun tb => tb.id == 1)) = true ∧
    ∃ row, create_booking storeEmpty 5 1 1 10 1080 0 "pending" none 2 =
        (.ok row, { storeEmpty with bookings := storeEmpty.bookings ++ [row],
                                    nextBookingId := storeEmpty.nextBookingId + 1 }) ∧
      row.guests_count = 0 :=
  ⟨le_refl 0, by decide, by decide, by decide,
   create_booking_accepts_nonpositive_guests storeEmpty 5 1 1 10 1080 0
     "pending" none 2 (le_refl 0) (by decide) (by decide) (by decide)⟩

/-- C6 does not hold as stated: a `create_booking` call with `guests_count`
equal to 0 raises nothing — it succeeds and persists a booking row with zero
guests. -/
theorem create_booking_nonpositive_guests_cex :
    (create_booking storeEmpty 5 1 1 10 1080 0 "pending" none 2).1 =
      .ok { id := 1, user_id := 1, table_id := 1, booking_date := 10,
            booking_time := 1080, guests_count := 0, status := "pending",
            notes := "", created_at := 5, updated_at := 5 } ∧
    (create_booking storeEmpty 5 1 1 10 1080 0 "pending" none 2).2.bookings =
      [{ id := 1, user_id := 1, table_id := 1, booking_date := 10,
         booking_time := 1080, guests_count := 0, status := "pending",
         notes := "", created_at := 5, updated_at := 5 }] := by
  decide

/-- C7 (amended): `delete_user` and `delete_table` issue unconditional deletes
with no cascade handling of their own, and when no booking references the row
they succeed, returning whether a row existed and removing it; but when a
booking still references the targeted user or table, the store's foreign-key
constraints reject the delete — the call raises a store-level error and
changes nothing, so dangling references never arise. -/
theorem delete_user_table_fk_behavior (st : Store) (uid tid : Nat) :
    ((∀ b ∈ st.bookings, b.user_id ≠ uid) →
      delete_user st uid =
        (.ok (st.users.any (fun u => u.id == uid)),
         { st with users := st.users.filter (fun u => !(u.id == uid)) })) ∧
    ((∃ u ∈ st.users, u.id = uid) → (∃ b ∈ st.bookings, b.user_id = uid) →
      delete_user st uid = (.error (.fkViolation "bookings_user_id_fkey"), st)) ∧
    ((∀ b ∈ st.bookings, b.table_id ≠ tid) →
      delete_table st tid =
        (.ok (st.tables.any (fun tb => tb.id == tid)),
         { st with tables := st.tables.filter (fun tb => !(tb.id == tid)) })) ∧
    ((∃ tb ∈ st.tables, tb.id = tid) → (∃ b ∈ st.bookings, b.table_id = tid) →
      delete_table st tid = (.error (.fkViolation "bookings_table_id_fkey"), st)) := by
  refine ⟨?_, ?_, ?_, ?_⟩
  · intro h
    unfold delete_user
    have hb : st.bookings.any (fun b => b.user_id == uid) = false := by
      simp only [List.any_eq_false, beq_iff_eq]
      exact h
    rw [hb]
    simp
  · intro hu hb
    unfold delete_user
    have hu' : st.users.any (fun u => u.id == uid) = true := by
      simp only [List.any_eq_true, beq_iff_eq]
      exact hu
    have hb' : st.bookings.any (fun b => b.user_id == uid) = true := by
      simp only [List.any_eq_true, beq_iff_eq]
      exact hb
    rw [hu', hb']
    simp
  · intro h
    unfold delete_table
    have hb : st.bookings.any (fun b => b.table_id == tid) = false := by
      simp only [List.any_eq_false, beq_iff_eq]
      exact h
    rw [hb]
    simp
  · intro ht hb
    unfold delete_table
    have ht' : st.tables.any (fun tb => tb.id == tid) = true := by
      simp only [List.any_eq_true, beq_iff_eq]
      exact ht
    have hb' : st.bookings.any (fun b => b.table_id == tid) = true := by
      simp only [List.any_eq_true, beq_iff_eq]
      exact hb
    rw [ht', hb']
    simp

theorem delete_user_table_fk_behavior_witness :
    (∀ b ∈ storeEmpty.bookings, b.user_id ≠ 1) ∧
    delete_user storeEmpty 1 =
      (.ok (storeEmpty.users.any (fun u => u.id == 1)),
       { storeEmpty with
           users := storeEmpty.users.filter (fun u => !(u.id == 1)) }) ∧
    (∃ u ∈ storeA.users, u.id = 1) ∧ (∃ b ∈ storeA.bookings, b.user_id = 1) ∧
    delete_user storeA 1 = (.error (.fkViolation "bookings_user_id_fkey"), storeA) :=
  ⟨by decide,
   (delete_user_table_fk_behavior storeEmpty 1 1).1 (by decide),
   by decide, by decide,
   (delete_user_table_fk_behavior storeA 1 1).2.1 (by decide) (by decide)⟩

/-- C7 does not hold as stated: deleting the user or the table referenced by
the pending booking of `storeA` does not succeed with `true` — the store's
foreign keys reject both deletes and both relations keep their rows. -/
theorem delete_referenced_rejected_cex :
    delete_user storeA 1 = (.error (.fkViolation "bookings_user_id_fkey"), storeA) ∧
    delete_table storeA 1 = (.error (.fkViolation "bookings_table_id_fkey"), storeA) := by
  decide

/-- An empty update set after dropping the protected keys makes `update_user`
return false and change nothing. -/
lemma update_user_empty (st : Store) (now rid : Nat) (p : UserPatch)
    (h : userPatchHasField p = false) :
    update_user st now rid p = (.ok false, st) := by
  simp [update_user, h]

/-- The values supplied under the protected keys have no influence on
`update_user`. -/
lemma update_user_protected_irrelevant (st : Store) (now rid : Nat)
    (p : UserPatch) (a b c : Option Nat) :
    update_user st now rid { p with id := a, created_at := b, updated_at := c } =
      update_user st now rid p := by
  cases p
  rfl

/-- `update_user` never changes a row's identity or `created_at`, and touches
no other relation. -/
lemma update_user_frame (st : Store) (now rid : Nat) (p : UserPatch) :
    (update_user st now rid p).2.users.map (fun u => (u.id, u.created_at)) =
      st.users.map (fun u => (u.id, u.created_at)) ∧
    (update_user st now rid p).2.tables = st.tables ∧
    (update_user st now rid p).2.bookings = st.bookings := by
  simp only [update_user]
  split
  · exact ⟨rfl, rfl, rfl⟩
  · split
    · exact ⟨rfl, rfl, rfl⟩
    · split
      · exact ⟨rfl, rfl, rfl⟩
      · split
        · exact ⟨rfl, rfl, rfl⟩
        · refine ⟨?_, rfl, rfl⟩
          rw [List.map_map]
          apply List.map_congr_left
          intro u _
          by_cases h : u.id = rid <;> simp [h, applyUserPatch]

/-- A true-returning `update_user` stamps the matched row's `updated_at` with
the call's current time. -/
lemma update_user_sets_updated_at (st : Store) (now rid : Nat) (p : UserPatch) :
    ∀ st', update_user st now rid p = (.ok true, st') →
      ∀ u ∈ st'.users, u.id = rid → u.updated_at = now := by
  intro st' h u hu hid
  simp only [update_user] at h
  split at h
  · simp at h
  · split at h
    · simp at h
    · split at h
      · simp at h
      · split at h
        · simp at h
        · simp only [Prod.mk.injEq] at h
          obtain ⟨-, hst⟩ := h
          subst hst
          simp only [List.mem_map] at hu
          obtain ⟨u0, hu0, hequ⟩ := hu
          by_cases h0 : u0.id == rid
          · rw [if_pos h0] at hequ
            subst hequ
            rfl
          · rw [if_neg h0] at hequ
            subst hequ
            exact absurd (beq_iff_eq.mpr hid) h0

/-- An empty update set after dropping the protected keys makes `update_table`
return false and change nothing. -/
lemma update_table_empty (st : Store) (now rid : Nat) (p : TablePatch)
    (h : tablePatchHasField p = false) :
    update_table st now rid p = (.ok false, st) := by
  simp [update_table, h]

/-- The values supplied under the protected keys have no influence on
`update_table`. -/
lemma update_table_protected_irrelevant (st : Store) (now rid : Nat)
    (p : TablePatch) (a b c : Option Nat) :
    update_table st now rid { p with id := a, created_at := b, updated_at := c } =
      update_table st now rid p := by
  cases p
  rfl

/-- `update_table` never changes a row's identity or `created_at`, and touches
no other relation. -/
lemma update_table_frame (st : Store) (now rid : Nat) (p : TablePatch) :
    (update_table st now rid p).2.tables.map (fun tb => (tb.id, tb.created_at)) =
      st.tables.map (fun tb => (tb.id, tb.created_at)) ∧
    (update_table st now rid p).2.users = st.users ∧
    (update_table st now rid p).2.bookings = st.bookings := by
  simp only [update_table]
  split
  · exact ⟨rfl, rfl, rfl⟩
  · split
    · exact ⟨rfl, rfl, rfl⟩
    · split
      · exact ⟨rfl, rfl, rfl⟩
      · refine ⟨?_, rfl, rfl⟩
        rw [List.map_map]
        apply List.map_congr_left
        intro tb _
        by_cases h : tb.id = rid <;> simp [h, applyTablePatch]

/-- A true-returning `update_table` stamps the matched row's `updated_at`
with the call's current time. -/
lemma update_table_sets_updated_at (st : Store) (now rid : Nat) (p : TablePatch) :
    ∀ st', update_table st now rid p = (.ok true, st') →
      ∀ tb ∈ st'.tables, tb.id = rid → tb.updated_at = now := by
  intro st' h tb htb hid
  simp only [update_table] at h
  split at h
  · simp at h
  · split at h
    · simp at h
    · split at h
      · simp at h
      · simp only [Prod.mk.injEq] at h
        obtain ⟨-, hst⟩ := h
        subst hst
        simp only [List.mem_map] at htb
        obtain ⟨t0, ht0, heqt⟩ := htb
        by_cases h0 : t0.id == rid
        · rw [if_pos h0] at heqt
          subst heqt
          rfl
        · rw [if_neg h0] at heqt
          subst heqt
          exact absurd (beq_iff_eq.mpr hid) h0

/-- An empty update set after dropping the protected keys makes
`update_booking` return false and change nothing. -/
lemma update_booking_empty (st : Store) (now rid : Nat) (p : BookingPatch)
    (h : bookingPatchHasField p = false) :
    update_booking st now rid p = (.ok false, st) := by
  simp [update_booking, h]

/-- The values supplied under the protected keys have no influence on
`update_booking`. -/
lemma update_booking_protected_irrelevant (st : Store) (now rid : Nat)
    (p : BookingPatch) (a b c : Option Nat) :
    update_booking st now rid { p with id := a, created_at := b, updated_at := c } =
      update_booking st now rid p := by
  cases p
  rfl

/-- `update_booking` never changes a row's identity or `created_at`, and
touches no other relation. -/
lemma update_booking_frame (st : Store) (now rid : Nat) (p : BookingPatch) :
    (update_booking st now rid p).2.bookings.map (fun b => (b.id, b.created_at)) =
      st.bookings.map (fun b => (b.id, b.created_at)) ∧
    (update_booking st now rid p).2.users = st.users ∧
    (update_booking st now rid p).2.tables = st.tables := by
  simp only [update_booking]
  split
  · exact ⟨rfl, rfl, rfl⟩
  · split
    · exact ⟨rfl, rfl, rfl⟩
    · split
      · exact ⟨rfl, rfl, rfl⟩
      · split
        · exact ⟨rfl, rfl, rfl⟩
        · refine ⟨?_, rfl, rfl⟩
          rw [List.map_map]
          apply List.map_congr_left
          intro b _
          by_cases h : b.id = rid <;> simp [h, applyBookingPatch]

/-- A true-returning `update_booking` rewrites the booking relation by
patching exactly the matched rows. -/
lemma update_booking_ok_true (st : Store) (now rid : Nat) (p : BookingPatch) :
    ∀ st', update_booking st now rid p = (.ok true, st') →
      st'.bookings = st.bookings.map
        (fun b => if b.id == rid then applyBookingPatch now p b else b) := by
  intro st' h
  simp only [update_booking] at h
  split at h
  · simp at h
  · split at h
    · simp at h
    · split at h
      · simp at h
      · split at h
        · simp at h
        · simp only [Prod.mk.injEq] at h
          obtain ⟨-, hst⟩ := h
          subst hst
          rfl

/-- A true-returning `update_booking` stamps the matched row's `updated_at`
with the call's current time. -/
lemma update_booking_sets_updated_at (st : Store) (now rid : Nat)
    (p : BookingPatch) :
    ∀ st', update_booking st now rid p = (.ok true, st') →
      ∀ b ∈ st'.bookings, b.id = rid → b.updated_at = now := by
  intro st' h b hb hid
  rw [update_booking_ok_true st now rid p st' h] at hb
  simp only [List.mem_map] at hb
  obtain ⟨b0, hb0, heqb⟩ := hb
  by_cases h0 : b0.id == rid
  · rw [if_pos h0] at heqb
    subst heqb
    rfl
  · rw [if_neg h0] at heqb
    subst heqb
    exact absurd (beq_iff_eq.mpr hid) h0

/-- A patch carrying only the protected keys. -/
def userPatchProtectedOnly : UserPatch :=
  { id := some 9, created_at := some 3, updated_at := some 4 }

/-- A patch setting only the booking status. -/
def bookingPatchConfirm : BookingPatch :=
  { status := some "confirmed" }

/-- `sampleBookingA` with its status confirmed at time 7. -/
def sampleBookingAConfirmed : BookingRow :=
  { sampleBookingA with status := "confirmed", updated_at := 7 }

/-- `storeA` after confirming its booking at time 7. -/
def storeAConfirmed : Store :=
  { storeA with bookings := [sampleBookingAConfirmed] }

/-- C10: each update operation drops the keys `id`, `created_at` and
`updated_at` from the supplied fields — their values never influence the call
— so no call ever modifies a record's identity or `created_at`
(`updated_at` is instead stamped with the operation's current time on the
matched record of a true-returning call); and a call whose supplied fields
are empty apart from the protected keys returns false and leaves the store
unchanged, with no `updated_at` refresh. -/
theorem update_ops_protected_fields (st : Store) (now rid : Nat)
    (pu : UserPatch) (pt : TablePatch) (pb : BookingPatch) :
    (userPatchHasField pu = false → update_user st now rid pu = (.ok false, st)) ∧
    (∀ a b c, update_user st now rid
        { pu with id := a, created_at := b, updated_at := c } =
      update_user st now rid pu) ∧
    ((update_user st now rid pu).2.users.map (fun u => (u.id, u.created_at)) =
      st.users.map (fun u => (u.id, u.created_at))) ∧
    (∀ st', update_user st now rid pu = (.ok true, st') →
      ∀ u ∈ st'.users, u.id = rid → u.updated_at = now) ∧
    (tablePatchHasField pt = false → update_table st now rid pt = (.ok false, st)) ∧
    (∀ a b c, update_table st now rid
        { pt with id := a, created_at := b, updated_at := c } =
      update_table st now rid pt) ∧
    ((update_table st now rid pt).2.tables.map (fun tb => (tb.id, tb.created_at)) =
      st.tables.map (fun tb => (tb.id, tb.created_at))) ∧
    (∀ st', update_table st now rid pt = (.ok true, st') →
      ∀ tb ∈ st'.tables, tb.id = rid → tb.updated_at = now) ∧
    (bookingPatchHasField pb = false → update_booking st now rid pb = (.ok false, st)) ∧
    (∀ a b c, update_booking st now rid
        { pb with id := a, created_at := b, updated_at := c } =
      update_booking st now rid pb) ∧
    ((update_booking st now rid pb).2.bookings.map (fun b => (b.id, b.created_at)) =
      st.bookings.map (fun b => (b.id, b.created_at))) ∧
    (∀ st', update_booking st now rid pb = (.ok true, st') →
      ∀ b ∈ st'.bookings, b.id = rid → b.updated_at = now) :=
  ⟨update_user_empty st now rid pu,
   fun a b c => update_user_protected_irrelevant st now rid pu a b c,
   (update_user_frame st now rid pu).1,
   update_user_sets_updated_at st now rid pu,
   update_table_empty st now rid pt,
   fun a b c => update_table_protected_irrelevant st now rid pt a b c,
   (update_table_frame st now rid pt).1,
   update_table_sets_updated_at st now rid pt,
   update_booking_empty st now rid pb,
   fun a b c => update_booking_protected_irrelevant st now rid pb a b c,
   (update_booking_frame st now rid pb).1,
   update_booking_sets_updated_at st now rid pb⟩

theorem update_ops_protected_fields_witness :
    userPatchHasField userPatchProtectedOnly = false ∧
    update_user storeA 7 1 userPatchProtectedOnly = (.ok false, storeA) ∧
    update_booking storeA 7 1 bookingPatchConfirm = (.ok true, storeAConfirmed) ∧
    (∀ b ∈ storeAConfirmed.bookings, b.id = 1 → b.updated_at = 7) :=
  ⟨by decide,
   (update_ops_protected_fields storeA 7 1 userPatchProtectedOnly {}
     bookingPatchConfirm).1 (by decide),
   by decide,
   (update_ops_protected_fields storeA 7 1 userPatchProtectedOnly {}
     bookingPatchConfirm).2.2.2.2.2.2.2.2.2.2.2 storeAConfirmed (by decide)⟩

/-- A successful availability check implies the table was found and is
available. -/
lemma check_ok_elim (st : Store) (tid d t dur : Nat) (r : Bool)
    (h : check_table_availability st tid d t dur = .ok r) :
    ∃ tb, get_table_by_id st tid = some tb ∧ tb.is_available = true := by
  unfold check_table_availability at h
  cases hf : get_table_by_id st tid with
  | none =>
    rw [hf] at h
    exact absurd h (by simp)
  | some tb =>
    rw [hf] at h
    by_cases hav : tb.is_available = true
    · exact ⟨tb, rfl, hav⟩
    · have hav' : tb.is_available = false := by
        simpa using hav
      simp [hav'] at h

/-- The no-overlap invariant survives any filtering of the relation. -/
lemma noOverlap_filter (l : List BookingRow) (p : BookingRow → Bool)
    (h : NoOverlap l) : NoOverlap (l.filter p) :=
  List.Pairwise.sublist (List.filter_sublist l) h

/-- Appending a row that overlaps nothing preserves the invariant. -/
lemma noOverlap_append (l : List BookingRow) (b : BookingRow)
    (h : NoOverlap l) (hb : ∀ b1 ∈ l, overlapping b1 b = false) :
    NoOverlap (l ++ [b]) := by
  rw [NoOverlap, List.pairwise_append]
  refine ⟨h, List.pairwise_singleton _ _, ?_⟩
  intro b1 h1 b2 h2
  rw [List.mem_singleton] at h2
  subst h2
  exact hb b1 h1

/-- A booking that clears the conflict query cannot overlap (in the 2-hour
sense of P1) with the inserted row, provided the candidate's duration is at
least the 2 hours the query ascribes to stored bookings. -/
lemma overlapping_new_false (tid d t dur : Nat) (row b1 : BookingRow)
    (hrow : row.table_id = tid ∧ row.booking_date = d ∧ row.booking_time = t)
    (hdur : 2 ≤ dur)
    (hc : conflictsWith tid d (d * 1440 + t) (d * 1440 + t + dur * 60) b1 = false) :
    overlapping b1 row = false := by
  rw [Bool.eq_false_iff] at hc ⊢
  intro hov
  apply hc
  simp only [overlapping, Bool.and_eq_true, bne_iff_ne, beq_iff_eq,
    decide_eq_true_eq] at hov
  obtain ⟨⟨⟨⟨⟨htab, hdate⟩, hs1⟩, hs2⟩, hlt1⟩, hlt2⟩ := hov
  have hstart : bookingStart row = d * 1440 + t := by
    simp [bookingStart, hrow.2.1, hrow.2.2]
  rw [hstart] at hlt1 hlt2
  simp only [conflictsWith, Bool.and_eq_true, bne_iff_ne, beq_iff_eq,
    decide_eq_true_eq]
  refine ⟨⟨⟨⟨?_, ?_⟩, ?_⟩, ?_⟩, ?_⟩
  · rw [htab, hrow.1]
  · rw [hdate, hrow.2.1]
  · exact hs1
  · omega
  · omega

/-- C1 (amended): of the exposed booking operations, `create_booking` (for a
requested duration of at least the 2 hours the conflict query ascribes to
every stored booking, the default included) and `delete_booking` preserve the
no-overlap invariant P1; `update_booking` runs no availability check and does
not — see the counterexample. -/
theorem create_delete_preserve_no_overlap (st : Store)
    (now uid tid d t bid : Nat) (g : Int) (s : String) (n : Option String)
    (dur : Nat) (hInv : NoOverlap st.bookings) (hdur : 2 ≤ dur) :
    (∀ row st', create_booking st now uid tid d t g s n dur = (.ok row, st') →
      NoOverlap st'.bookings) ∧
    NoOverlap (delete_booking st bid).2.bookings := by
  constructor
  · intro row st' h
    rw [create_booking_ok_iff] at h
    obtain ⟨hchk, hu, ht, hrow, hst⟩ := h
    subst hst
    obtain ⟨tb, hfind, hav⟩ := check_ok_elim st tid d t dur true hchk
    rw [check_ok_true_iff st tid d t dur tb hfind hav] at hchk
    refine noOverlap_append st.bookings row hInv ?_
    intro b1 h1
    exact overlapping_new_false tid d t dur row b1
      (by rw [hrow]; exact ⟨rfl, rfl, rfl⟩) hdur (hchk b1 h1)
  · exact noOverlap_filter st.bookings _ hInv

theorem create_delete_preserve_no_overlap_witness :
    NoOverlap storeA.bookings ∧ 2 ≤ 2 ∧
    create_booking storeA 5 1 1 10 1200 2 "pending" none 2 =
      (.ok sampleBookingTouch, storeATouch) ∧
    NoOverlap storeATouch.bookings ∧
    NoOverlap (delete_booking storeA 1).2.bookings :=
  ⟨by decide, by decide, by decide,
   (create_delete_preserve_no_overlap storeA 5 1 1 10 1200 1 2 "pending" none 2
     (by decide) (by decide)).1 sampleBookingTouch storeATouch (by decide),
   (create_delete_preserve_no_overlap storeA 5 1 1 10 1200 1 2 "pending" none 2
     (by decide) (by decide)).2⟩

/-- C1 does not hold as stated: from the empty store, two `create_booking`
calls reach `storeAB`, whose two pending bookings share the 18:00 slot of day
10 on different tables, satisfying P1; `update_booking` then moves booking 2
onto table 1, returns true, and leaves two overlapping non-cancelled bookings
on the same table and date — the update path preserves no overlap freedom. -/
theorem update_booking_breaks_no_overlap_cex :
    storeA = (create_booking storeEmpty 0 1 1 10 1080 2 "pending" none 2).2 ∧
    storeAB = (create_booking storeA 0 1 2 10 1080 2 "pending" none 2).2 ∧
    NoOverlap storeAB.bookings ∧
    (update_booking storeAB 99 2 { table_id := some 1 }).1 = .ok true ∧
    ¬ NoOverlap ((update_booking storeAB 99 2 { table_id := some 1 }).2.bookings) := by
  decide

/-- C8: the persisted notes field is always a string — `create_booking` with
no notes stores the empty string and with a string stores its stripped form;
when the update set of a true-returning `update_booking` includes `notes`,
every updated row carries the same normalization of the supplied value
(`None` becomes the empty string, a string its stripped form). -/
theorem notes_normalization (st : Store) (now uid tid d t bid : Nat) (g : Int)
    (s : String) (dur : Nat) (p : BookingPatch) :
    (∀ row st', create_booking st now uid tid d t g s none dur = (.ok row, st') →
      row.notes = "") ∧
    (∀ str row st',
      create_booking st now uid tid d t g s (some str) dur = (.ok row, st') →
      row.notes = pyStrip str) ∧
    (∀ st', update_booking st now bid p = (.ok true, st') →
      ∀ b ∈ st'.bookings, b.id = bid →
        (p.notes = some none → b.notes = "") ∧
        (∀ str, p.notes = some (some str) → b.notes = pyStrip str)) := by
  refine ⟨?_, ?_, ?_⟩
  · intro row st' h
    rw [create_booking_ok_iff] at h
    rw [h.2.2.2.1]
    rfl
  · intro str row st' h
    rw [create_booking_ok_iff] at h
    rw [h.2.2.2.1]
    rfl
  · intro st' h b hb hid
    rw [update_booking_ok_true st now bid p st' h] at hb
    simp only [List.mem_map] at hb
    obtain ⟨b0, hb0, heqb⟩ := hb
    by_cases h0 : b0.id == bid
    · rw [if_pos h0] at heqb
      subst heqb
      constructor
      · intro hp
        simp [applyBookingPatch, hp, normalizeNotes]
      · intro str hp
        simp [applyBookingPatch, hp, normalizeNotes]
    · rw [if_neg h0] at heqb
      subst heqb
      exact absurd (beq_iff_eq.mpr hid) h0

theorem notes_normalization_witness :
    create_booking storeEmpty 5 1 1 10 1080 2 "pending" (some "  hi ") 2 =
      (.ok { sampleBookingC5 with notes := "hi" },
       { storeEmpty with bookings := [{ sampleBookingC5 with notes := "hi" }],
                         nextBookingId := 2 }) ∧
    ({ sampleBookingC5 with notes := "hi" } : BookingRow).notes = pyStrip "  hi " :=
  ⟨by decide,
   (notes_normalization storeEmpty 5 1 1 10 1080 1 2 "pending" 2
     { notes := some (some "x") }).2.1 "  hi " { sampleBookingC5 with notes := "hi" }
     { storeEmpty with bookings := [{ sampleBookingC5 with notes := "hi" }],
                       nextBookingId := 2 }
     (by decide)⟩
